import Mathlib

/-!
Verification development for the `logpv2` diagnostic collection tool.

The repository is a Rust program (src/lib.rs, src/main.rs) that gathers
cluster diagnostics into a staging directory tree and archives it.  The
definitions below are a shallow embedding of the functions the claims are
about: pure path construction (`folder_creation`), the output writer
(`write_file`) over an explicit file-system map, the resolver
(`get_pod_list`) with the cluster's listing responses passed in as a
function, the attach-session parameters of `send_command`, the stdout
decoding loop (`get_output`) with the byte decoder passed in as a
function, the spawn/join phase structure of `main`, the Kafka service
block's guard, the first-container accesses of the service tasks, and the
archive finalization / cleanup epilogue of `main`.
-/

namespace Logpv2

/-- Embedding of `ConfigFile` (src/lib.rs, lines 19-27).  Only the fields
the claims touch are carried; serde-specific attributes are irrelevant
here. -/
structure ConfigFile where
  context_name : String
  context_namespace : List String
  output_directory_path : String
  previous_logs : Bool
  current_logs : Bool
  non_exfo_kafka_product_kubernetes_label : String
deriving Repr, DecidableEq

/-- `s.strip_suffix(path::is_separator)` on Linux: remove one trailing
`'/'` if present, otherwise keep the string (src/main.rs, line 37;
`unwrap_or` keeps the original when nothing was stripped). -/
def stripTrailingSep (s : String) : String :=
  if s.endsWith "/" then s.dropRight 1 else s

/-- Embedding of `folder_creation` (src/main.rs, lines 32-56).  The
timestamp produced by `Utc::now().format(..)` and the result of
`current_dir()` are external inputs to the pure path computation, so they
are parameters `date` and `cwd`.  The Rust function wraps the vector in
`Result` but never returns `Err`; the embedding returns the list
directly. -/
def folder_creation (c : ConfigFile) (date : String) (cwd : String) : List String :=
  let file_name_gz := "info_" ++ c.context_name ++ "_" ++ date ++ ".tar.gz"
  let folder_to_save :=
    if c.output_directory_path ≠ "" then stripTrailingSep c.output_directory_path
    else cwd
  let folder_vec :=
    ["pods", "infra", "helm", "apps"].map
      (fun f => folder_to_save ++ "/info_" ++ c.context_name ++ "_" ++ date ++ "/" ++ f)
  let folder_src_tar := folder_to_save ++ "/info_" ++ c.context_name ++ "_" ++ date
  folder_vec ++ [file_name_gz, folder_src_tar, folder_to_save]

/-- A file system for the output writer: a map from full path to the
byte content of the file, `none` when no file exists at that path.
Bytes are modelled as naturals (no arithmetic is ever done on them). -/
def FS : Type := String → Option (List Nat)

/-- Embedding of `write_file` (src/lib.rs, lines 52-65).  The Rust
function opens `folder + "/" + filename` with `create(true).append(true)`
(create an empty file when missing, never truncate, position at the end)
and writes `data` through a `BufWriter`; when `data` is empty it returns
the caller-supplied `error` without touching the file system.  The
embedding returns the updated file system on success. -/
def write_file (fs : FS) (folder : String) (data : List Nat) (filename : String)
    (error : String) : Except String FS :=
  if !data.isEmpty then
    let p := folder ++ "/" ++ filename
    let old := (fs p).getD []
    .ok (fun q => if q = p then some (old ++ data) else fs q)
  else
    .error error

/-- One listed pod as `get_pod_list` consumes it: `i.name_any()`,
`i.namespace().unwrap()`, and the container names of `i.spec.unwrap()`.
The Rust code unwraps the `Option` namespace and spec; for pods returned
by a list call the platform always populates both, so they are modelled
as plain fields. -/
structure PodItem where
  name : String
  ns : String
  containers : List String
deriving Repr, DecidableEq

/-- Embedding of `get_pod_list` (src/lib.rs, lines 67-99).  `κ` stands
for the per-namespace `Api<Pod>` capability; the network behaviour of
`p.list(..)` for the call's selectors is the external input, passed in as
`listResult`.  The loop pushes, namespace by namespace, one tuple
`(name, namespace, capability, container names)` per listed item; the `?`
on the list call aborts the whole function at the first listing failure,
so no partial vector is ever returned. -/
def get_pod_list {κ : Type} {ε : Type} (listResult : κ → Except ε (List PodItem)) :
    List κ → Except ε (List (String × String × κ × List String))
  | [] => .ok []
  | p :: rest =>
    match listResult p with
    | .error e => .error e
    | .ok items =>
      match get_pod_list listResult rest with
      | .error e => .error e
      | .ok plns =>
        .ok ((items.map fun i => (i.name, i.ns, p, i.containers)) ++ plns)

/-- The fields of `kube::api::AttachParams` that `send_command` sets
(src/lib.rs, lines 128-135).  The fields filled by `..Default::default()`
are stdin/stdout/stderr buffer sizes, irrelevant to the claims. -/
structure AttachParams where
  container : Option String
  stderr : Bool
  stdin : Bool
  stdout : Bool
  tty : Bool
deriving Repr, DecidableEq

/-- The `AttachParams` value `send_command` constructs for a given
container (src/lib.rs, lines 128-135): `container: Some(container),
stderr: false, stdin: true, stdout: true, tty: true`. -/
def send_command_attach_params (container : String) : AttachParams :=
  { container := some container
    stderr := false
    stdin := true
    stdout := true
    tty := true }

/-- Embedding of `get_output` (src/lib.rs, lines 143-153).  `β` is the
type of one raw stdout chunk (`Bytes` in Rust); a chunk arrives from the
`ReaderStream` as `Except ε β` (`r` in the Rust closure).  `decode` is
`String::from_utf8(..).ok` passed in as a function: `none` exactly when
the chunk is not valid UTF-8.  The stream fold
`filter_map (r.ok().and_then(from_utf8 ok))` keeps a decoded string per
decodable successful chunk and drops everything else; the kept strings
are joined with the empty separator.  `attached.join()` runs after the
collection and its `?` is the only error exit, modelled by `joinRes`. -/
def get_output {β ε : Type} (decode : β → Option String)
    (chunks : List (Except ε β)) (joinRes : Except ε Unit) : Except ε String :=
  let out := String.join (chunks.filterMap fun r =>
    match r with
    | .ok b => decode b
    | .error _ => none)
  match joinRes with
  | .error e => .error e
  | .ok _ => .ok out

/-- Outcome of evaluating one service-specific diagnostics block of
`main`: skipped by its emptiness guard, ran and spawned `tasks` tasks, or
panicked before spawning anything. -/
inductive BlockOutcome where
  | skipped
  | ran (tasks : Nat)
  | panicked
deriving Repr, DecidableEq

/-- Embedding of the Kafka info block's selection and guard
(src/main.rs, lines 762-784).  `per_label` holds, in order, the
(successful) `get_pod_list` result for each of the two Kafka labels; the
loop pushes only the non-empty ones into `kafka_pods`.  The guard then
evaluates `kafka_pods[0]`, a `Vec` index that panics when `kafka_pods` is
empty, i.e. when both labels matched zero pods; otherwise the pushed
entry is non-empty by construction and the block spawns its five command
tasks (src/main.rs, lines 784-828). -/
def kafka_block (per_label : List (List PodItem)) : BlockOutcome :=
  let kafka_pods := per_label.filter (fun kf => !kf.isEmpty)
  match kafka_pods.get? 0 with
  | none => .panicked
  | some kf0 => if !kf0.isEmpty then .ran 5 else .skipped

/-- Embedding of the Elasticsearch block's guard (src/main.rs, line 503):
`if !es_pods.clone().is_empty() { .. }` — the block that spawns the eight
Elasticsearch command tasks runs only when the selector matched at least
one pod, and an empty match skips it without error. -/
def es_block (es_pods : List PodItem) : BlockOutcome :=
  if !es_pods.isEmpty then .ran 8 else .skipped

/-- Outcome of the first-container access performed at the start of a
service task closure: the resolved pod name and container name, or a
panic from an unchecked index / unwrap. -/
inductive AccessOutcome where
  | ok (pod container : String)
  | panicked
deriving Repr, DecidableEq

/-- Embedding of the Elasticsearch task's target selection (src/main.rs,
lines 561-569): `&es_pods[0].0`, `&es_pods[0].2`, `&es_pods[0].3[0]` —
both the pod index and the container index are unchecked `Vec` indexing,
which panics when out of bounds. -/
def es_first_container (es_pods : List PodItem) : AccessOutcome :=
  match es_pods.get? 0 with
  | none => .panicked
  | some p =>
    match p.containers.get? 0 with
    | none => .panicked
    | some c => .ok p.name c

/-- Embedding of the Hadoop task's target selection (src/main.rs, lines
690-698): `hadoop_pods.first().as_ref().unwrap()` (panic when the vector
is empty) followed by the unchecked container index `.3[0]` (panic when
the instance declares zero containers). -/
def hadoop_first_container (hadoop_pods : List PodItem) : AccessOutcome :=
  match hadoop_pods.head? with
  | none => .panicked
  | some p =>
    match p.containers.get? 0 with
    | none => .panicked
    | some c => .ok p.name c

/-- Embedding of the archive finalization / cleanup epilogue of `main`
(src/main.rs, lines 953-961).  `finishRes` is the outcome of
`tar.finish()`, `removeRes` the outcome of `fs::remove_dir_all(&folders[5])`.
The code matches on `tar.finish()` and only logs — `Err(e)` produces a
warning and the run continues — and then runs `remove_dir_all`
unconditionally.  The result is whether the staging tree still exists
afterwards, paired with the warnings emitted. -/
def archive_epilogue (finishRes : Except String Unit)
    (removeRes : Except String Unit) (stagingExists : Bool) :
    Bool × List String :=
  let finishWarns :=
    match finishRes with
    | .ok _ => []
    | .error e => [e]
  match removeRes with
  | .ok _ => (false, finishWarns)
  | .error e => (stagingExists, finishWarns ++ [e])

/-- One spawned task of a phase in the timed model of `main`'s
spawn/join structure: it is spawned at the phase's start instant, takes
`dur` time units to resolve, and resolves to `result` (for the real
tasks, `result` is the logged success-or-failure outcome; failures are
caught inside the task, so every task resolves). -/
structure TimedTask (α : Type) where
  dur : Nat
  result : α
deriving Repr, DecidableEq

/-- The sequential await loop `for handle in fut_handle { handle.await }`
(src/main.rs, lines 229-236, 270-277, 311-318, 411-418, 479-486, and the
per-service copies).  All tasks were spawned at instant `start`; `now` is
the loop's current instant.  Awaiting a handle returns once that task has
resolved, i.e. at `max now (start + dur)`, and the task's outcome is
handled right there — appended in order, none skipped. -/
def joinFrom {α : Type} (start now : Nat) : List (TimedTask α) → Nat × List α
  | [] => (now, [])
  | t :: ts =>
    let r := joinFrom start (max now (start + t.dur)) ts
    (r.1, t.result :: r.2)

/-- One phase: spawn every task at `start` (`tokio::task::spawn` in the
builder loop), then run the await loop.  Returns the instant at which the
barrier clears and the per-task outcomes in spawn order. -/
def runPhase {α : Type} (start : Nat) (tasks : List (TimedTask α)) : Nat × List α :=
  joinFrom start start tasks

/-- The phases of `main` run strictly in sequence: each phase's builder
and await loop only execute after the previous await loop returned. -/
def runPhases {α : Type} (start : Nat) : List (List (TimedTask α)) → Nat × List (List α)
  | [] => (start, [])
  | ph :: rest =>
    let j := runPhase start ph
    let r := runPhases j.1 rest
    (r.1, j.2 :: r.2)

/-- The instant at which phase `i` starts (for `i` past the last phase:
the instant the whole run ends). -/
def phaseStart {α : Type} (start : Nat) : List (List (TimedTask α)) → Nat → Nat
  | _, 0 => start
  | [], _ + 1 => start
  | ph :: rest, i + 1 => phaseStart (runPhase start ph).1 rest i

/-- The item list of a successful listing response (the empty list for a
failed one); used only to state what the resolver returns on the
all-success path. -/
def listItems {ε : Type} (r : Except ε (List PodItem)) : List PodItem :=
  match r with
  | .ok l => l
  | .error _ => []

/-- The spec-side description of `get_output`'s result, written from the
spec's words ("the concatenation of exactly those stdout chunks that are
valid UTF-8; any chunk that fails to read or to decode is silently
dropped"): walk the chunks in order, a decodable successful chunk
contributes its decoded text, every other chunk contributes nothing. -/
def get_output_spec_text {β ε : Type} (decode : β → Option String) :
    List (Except ε β) → String
  | [] => ""
  | c :: rest =>
    (match c with
     | .ok b => (decode b).getD ""
     | .error _ => "") ++ get_output_spec_text decode rest

/-- A chunk the stream fold of `get_output` drops: a failed read, or a
successful read whose bytes do not decode. -/
def droppedChunk {β ε : Type} (decode : β → Option String) (c : Except ε β) : Prop :=
  match c with
  | .ok b => decode b = none
  | .error _ => True

/-- The empty file system: no file exists at any path. -/
def fs0 : FS := fun _ => none

/-- A concrete cluster for the resolver theorems: namespace capability 0
lists one pod, every other capability's listing call fails. -/
def lr1 : Nat → Except String (List PodItem) :=
  fun n =>
    match n with
    | 0 => .ok [{ name := "p0", ns := "ns0", containers := ["c0"] }]
    | _ => .error "forbidden"

/-- A concrete byte decoder for the `get_output` theorems: only the chunk
`[104, 105]` ("hi") decodes, everything else is invalid. -/
def decodeW : List Nat → Option String :=
  fun b => if b = [104, 105] then some "hi" else none

lemma joinFrom_fst_le {α : Type} (start : Nat) (ts : List (TimedTask α)) :
    ∀ now, now ≤ (joinFrom start now ts).1 := by
  induction ts with
  | nil => intro now; exact Nat.le_refl _
  | cons t ts ih =>
    intro now
    exact Nat.le_trans (Nat.le_max_left _ _) (ih (max now (start + t.dur)))

lemma joinFrom_fst_mem {α : Type} (start : Nat) (ts : List (TimedTask α))
    (t : TimedTask α) (ht : t ∈ ts) :
    ∀ now, start + t.dur ≤ (joinFrom start now ts).1 := by
  induction ts with
  | nil => cases ht
  | cons u ts ih =>
    intro now
    rcases List.mem_cons.mp ht with h | h
    · subst h
      exact Nat.le_trans (Nat.le_max_right _ _) (joinFrom_fst_le start ts _)
    · exact ih h _

lemma joinFrom_snd {α : Type} (start : Nat) (ts : List (TimedTask α)) :
    ∀ now, (joinFrom start now ts).2 = ts.map TimedTask.result := by
  induction ts with
  | nil => intro now; rfl
  | cons t ts ih =>
    intro now
    simp [joinFrom, ih]

lemma phaseStart_zero {α : Type} (start : Nat) (phases : List (List (TimedTask α))) :
    phaseStart start phases 0 = start := by
  cases phases <;> rfl

lemma phaseStart_cons_succ {α : Type} (start : Nat) (ph0 : List (TimedTask α))
    (rest : List (List (TimedTask α))) (i : Nat) :
    phaseStart start (ph0 :: rest) (i + 1) = phaseStart (runPhase start ph0).1 rest i := by
  rfl

lemma string_foldl_append (l : List String) :
    ∀ a : String, l.foldl (· ++ ·) a = a ++ l.foldl (· ++ ·) "" := by
  induction l with
  | nil => intro a; simp [List.foldl]
  | cons s l ih =>
    intro a
    simp only [List.foldl]
    rw [ih (a ++ s), ih ("" ++ s), String.empty_append, String.append_assoc]

lemma string_join_cons (s : String) (l : List String) :
    String.join (s :: l) = s ++ String.join l := by
  show (s :: l).foldl (· ++ ·) "" = s ++ l.foldl (· ++ ·) ""
  simp only [List.foldl, String.empty_append]
  exact string_foldl_append l s

lemma write_file_ok (fs : FS) (folder filename error : String) (d : List Nat)
    (h : d ≠ []) :
    write_file fs folder d filename error =
      .ok (fun q => if q = folder ++ "/" ++ filename
        then some ((fs (folder ++ "/" ++ filename)).getD [] ++ d) else fs q) := by
  match d, h with
  | a :: as, _ => rfl

lemma filterMap_join_spec {β ε : Type} (decode : β → Option String)
    (chunks : List (Except ε β)) :
    String.join (chunks.filterMap fun r =>
      match r with
      | .ok b => decode b
      | .error _ => none) = get_output_spec_text decode chunks := by
  induction chunks with
  | nil => rfl
  | cons c rest ih =>
    cases c with
    | error e =>
      simpa [get_output_spec_text, List.filterMap_cons] using ih
    | ok b =>
      cases hd : decode b with
      | none => simpa [get_output_spec_text, List.filterMap_cons, hd] using ih
      | some s =>
        simp [get_output_spec_text, List.filterMap_cons, hd, string_join_cons, ih]

/-- C1 (counterexample): the claim "if archive finalization fails, the
staging tree still exists afterward" is false on the code — with a
failing `tar.finish()` and a succeeding `remove_dir_all`, the staging
tree is gone afterwards. -/
theorem finalize_failure_still_deletes_staging :
    (archive_epilogue (.error "tar finalization failed") (.ok ()) true).1 = false := rfl

/-- C1 (amended): cleanup is unconditional — whenever the removal call
itself succeeds, the staging tree no longer exists afterwards regardless
of the finalization outcome; a finalization failure only adds a warning
and does not prevent the deletion. -/
theorem archive_cleanup_unconditional :
    ∀ (finishRes : Except String Unit) (stagingExists : Bool),
    (archive_epilogue finishRes (.ok ()) stagingExists).1 = false ∧
    (∀ e, archive_epilogue (.error e) (.ok ()) stagingExists = (false, [e])) ∧
    archive_epilogue (.ok ()) (.ok ()) stagingExists = (false, []) := by
  intro finishRes st
  refine ⟨?_, fun e => rfl, rfl⟩
  cases finishRes with
  | ok u => rfl
  | error e => rfl

/-- C2 (counterexample): the claim that the attached session is opened
without terminal allocation, with stderr capture and with no stdin is
false on the code — `send_command` sets `tty: true, stderr: false,
stdin: true`. -/
theorem send_command_claimed_params_false :
    ¬ ((send_command_attach_params "kafka").tty = false ∧
       (send_command_attach_params "kafka").stderr = true ∧
       (send_command_attach_params "kafka").stdin = false) := by
  decide

/-- C2 (amended): every in-container command execution opens the attached
session WITH interactive terminal allocation (`tty = true`), requests
stdout capture but no separate stderr capture, enables stdin, and targets
the named container. -/
theorem send_command_session_params :
    ∀ (c : String),
    (send_command_attach_params c).tty = true ∧
    (send_command_attach_params c).stderr = false ∧
    (send_command_attach_params c).stdout = true ∧
    (send_command_attach_params c).stdin = true ∧
    (send_command_attach_params c).container = some c := by
  intro c
  exact ⟨rfl, rfl, rfl, rfl, rfl⟩

/-- C3 (code evaluated at the failing input): when both Kafka label
selectors match zero pods the Kafka block's guard `kafka_pods[0]` indexes
an empty vector and panics, while the sibling Elasticsearch guard skips
silently on a zero match — the code contradicts the claim (and its own
sibling-block pattern) for the Kafka service. -/
theorem kafka_empty_match_panics :
    kafka_block [[], []] = BlockOutcome.panicked ∧
    es_block [] = BlockOutcome.skipped :=
  ⟨rfl, rfl⟩

/-- C4: the output writer returns the caller-supplied failure value on an
empty payload (producing no file system — no file is created), and on a
non-empty payload appends exactly those bytes to the named file in the
named folder, leaving every other path untouched. -/
theorem write_file_validates_and_persists :
    ∀ (fs : FS) (folder filename error : String) (data : List Nat),
    (data = [] → write_file fs folder data filename error = .error error) ∧
    (data ≠ [] → ∃ fsOut, write_file fs folder data filename error = .ok fsOut ∧
      fsOut (folder ++ "/" ++ filename) =
        some ((fs (folder ++ "/" ++ filename)).getD [] ++ data) ∧
      ∀ q, q ≠ folder ++ "/" ++ filename → fsOut q = fs q) := by
  intro fs folder filename error data
  constructor
  · rintro rfl
    rfl
  · intro h
    refine ⟨_, write_file_ok fs folder filename error data h, by simp, ?_⟩
    intro q hq
    simp [hq]

/-- C4 (witness): concrete runs of the writer on the empty file system,
with an empty and with a one-byte payload. -/
theorem write_file_validates_and_persists_witness :
    (write_file fs0 "stage/pods" [] "a.log" "empty response" = .error "empty response") ∧
    (∃ fsOut, write_file fs0 "stage/pods" [7] "a.log" "empty response" = .ok fsOut ∧
      fsOut ("stage/pods" ++ "/" ++ "a.log") =
        some ((fs0 ("stage/pods" ++ "/" ++ "a.log")).getD [] ++ [7]) ∧
      ∀ q, q ≠ "stage/pods" ++ "/" ++ "a.log" → fsOut q = fs0 q) :=
  ⟨(write_file_validates_and_persists fs0 "stage/pods" "a.log" "empty response" []).1 rfl,
   (write_file_validates_and_persists fs0 "stage/pods" "a.log" "empty response" [7]).2
     (by simp)⟩

/-- C5 (counterexample): the claim that a zero-container instance is
treated as an explicit failure condition is false on the code — the
Elasticsearch and Hadoop task closures reach the unchecked first-container
index and panic. -/
theorem es_zero_containers_panics :
    es_first_container [{ name := "es-master-0", ns := "ns1", containers := [] }] =
      AccessOutcome.panicked ∧
    hadoop_first_container [{ name := "dn-0", ns := "ns1", containers := [] }] =
      AccessOutcome.panicked :=
  ⟨rfl, rfl⟩

/-- C5 (amended): for every resolved instance list whose first instance
declares zero containers, the Elasticsearch and Hadoop first-container
accesses panic via the unchecked index — the anomaly is not converted
into an explicit failure value (the panic is confined to the spawned task
and surfaces as a join error at the phase barrier). -/
theorem zero_containers_unchecked_panic :
    ∀ (p : PodItem) (rest : List PodItem), p.containers = [] →
    es_first_container (p :: rest) = AccessOutcome.panicked ∧
    hadoop_first_container (p :: rest) = AccessOutcome.panicked := by
  intro p rest h
  constructor
  · simp [es_first_container, h]
  · simp [hadoop_first_container, h]

/-- C5 (witness): the amended statement at a concrete one-instance list
with zero containers. -/
theorem zero_containers_unchecked_panic_witness :
    es_first_container [{ name := "es-0", ns := "ns", containers := [] }] =
      AccessOutcome.panicked ∧
    hadoop_first_container [{ name := "es-0", ns := "ns", containers := [] }] =
      AccessOutcome.panicked :=
  zero_containers_unchecked_panic { name := "es-0", ns := "ns", containers := [] } [] rfl

/-- C6: in the timed model of `main`'s spawn/join structure, (1) the
outcome lists of the run keep every task's result in spawn order — no
per-task result is lost at a barrier — and (2) for every phase `i`,
every task of phase `i` has resolved (its start instant plus its duration
has passed) by the instant phase `i + 1` starts. -/
theorem phase_join_barrier :
    ∀ {α : Type} (start : Nat) (phases : List (List (TimedTask α))),
    ((runPhases start phases).2 = phases.map (fun ph => ph.map TimedTask.result)) ∧
    (∀ i ph t, phases.get? i = some ph → t ∈ ph →
      phaseStart start phases i + t.dur ≤ phaseStart start phases (i + 1)) := by
  intro α start phases
  constructor
  · induction phases generalizing start with
    | nil => rfl
    | cons ph rest ih =>
      simp [runPhases, runPhase, joinFrom_snd, ih]
  · induction phases generalizing start with
    | nil =>
      intro i ph t hph
      simp at hph
    | cons ph0 rest ih =>
      intro i ph t hph ht
      cases i with
      | zero =>
        have hph0 : ph0 = ph := by simpa using hph
        subst hph0
        rw [phaseStart_zero, phaseStart_cons_succ, phaseStart_zero]
        exact joinFrom_fst_mem start ph0 t ht start
      | succ i =>
        have hget : rest.get? i = some ph := by simpa using hph
        rw [phaseStart_cons_succ, phaseStart_cons_succ]
        exact ih (runPhase start ph0).1 i ph t hget ht

/-- C6 (witness): a two-phase run with one slow and one fast task — both
results are kept in order and the second phase does not start before the
slow task has resolved. -/
theorem phase_join_barrier_witness :
    ((runPhases 0 [[⟨10, "slow ok"⟩, ⟨1, "fast ok"⟩], [⟨2, "next"⟩]]).2 =
      [["slow ok", "fast ok"], ["next"]]) ∧
    phaseStart 0 [[⟨10, "slow ok"⟩, ⟨1, "fast ok"⟩], [⟨2, "next"⟩]] 0 + 10 ≤
      phaseStart 0 [[⟨10, "slow ok"⟩, ⟨1, "fast ok"⟩], [⟨2, "next"⟩]] 1 :=
  ⟨(phase_join_barrier 0 [[⟨10, "slow ok"⟩, ⟨1, "fast ok"⟩], [⟨2, "next"⟩]]).1,
   (phase_join_barrier 0 [[⟨10, "slow ok"⟩, ⟨1, "fast ok"⟩], [⟨2, "next"⟩]]).2
     0 [⟨10, "slow ok"⟩, ⟨1, "fast ok"⟩] ⟨10, "slow ok"⟩ rfl (by simp)⟩

/-- C7: the resolver fails the whole call with a resolution error as soon
as any namespace's listing operation fails — no partial vector is
returned — and when every listing succeeds it returns, namespace by
namespace, one `(name, namespace, capability, container names)` tuple
per matching instance. -/
theorem get_pod_list_all_or_nothing :
    ∀ {κ ε : Type} (listResult : κ → Except ε (List PodItem)) (pods : List κ),
    ((∃ p ∈ pods, ∃ e, listResult p = .error e) →
      ∃ e, get_pod_list listResult pods = .error e) ∧
    ((∀ p ∈ pods, ∃ items, listResult p = .ok items) →
      get_pod_list listResult pods =
        .ok (pods.flatMap fun p =>
          (listItems (listResult p)).map fun i => (i.name, i.ns, p, i.containers))) := by
  intro κ ε listResult pods
  induction pods with
  | nil =>
    constructor
    · rintro ⟨p, hp, _⟩
      simp at hp
    · intro _
      rfl
  | cons p rest ih =>
    constructor
    · rintro ⟨q, hq, e, he⟩
      rcases List.mem_cons.mp hq with h | h
      · subst h
        exact ⟨e, by simp [get_pod_list, he]⟩
      · cases hLR : listResult p with
        | error e0 => exact ⟨e0, by simp [get_pod_list, hLR]⟩
        | ok items =>
          obtain ⟨e1, he1⟩ := ih.1 ⟨q, h, e, he⟩
          exact ⟨e1, by simp [get_pod_list, hLR, he1]⟩
    · intro h
      obtain ⟨items, hitems⟩ := h p (List.mem_cons_self p rest)
      have hrest := ih.2 (fun q hq => h q (List.mem_cons_of_mem p hq))
      simp [get_pod_list, hitems, hrest, listItems, List.flatMap_cons]

/-- C7 (witness): with capability 0 listing one pod and capability 1
failing, the two-namespace call errors as a whole, and the one-namespace
call returns the pod's tuple. -/
theorem get_pod_list_all_or_nothing_witness :
    (∃ e, get_pod_list lr1 [0, 1] = .error e) ∧
    get_pod_list lr1 [0] = .ok [("p0", "ns0", 0, ["c0"])] := by
  constructor
  · exact (get_pod_list_all_or_nothing lr1 [0, 1]).1 ⟨1, by simp, "forbidden", rfl⟩
  · refine ((get_pod_list_all_or_nothing lr1 [0]).2 ?_).trans (by rfl)
    intro p hp
    have hp0 : p = 0 := by simpa using hp
    subst hp0
    exact ⟨_, rfl⟩

/-- C8: two successive successful writes of non-empty payloads to the
same folder and filename accumulate — the file afterwards holds its
pre-existing content followed by the first payload followed by the
second; nothing is truncated. -/
theorem write_file_appends_never_truncates :
    ∀ (fs : FS) (folder filename e1 e2 : String) (d1 d2 : List Nat),
    d1 ≠ [] → d2 ≠ [] →
    ∃ fs1 fs2,
      write_file fs folder d1 filename e1 = .ok fs1 ∧
      write_file fs1 folder d2 filename e2 = .ok fs2 ∧
      fs2 (folder ++ "/" ++ filename) =
        some ((fs (folder ++ "/" ++ filename)).getD [] ++ d1 ++ d2) := by
  intro fs folder filename e1 e2 d1 d2 h1 h2
  refine ⟨_, _, write_file_ok fs folder filename e1 d1 h1,
    write_file_ok _ folder filename e2 d2 h2, ?_⟩
  simp

/-- C8 (witness): writing `[1]` then `[2]` to a fresh file yields the
content `[1, 2]`. -/
theorem write_file_appends_never_truncates_witness :
    ∃ fs1 fs2,
      write_file fs0 "stage/helm" [1] "values.yaml" "first empty" = .ok fs1 ∧
      write_file fs1 "stage/helm" [2] "values.yaml" "second empty" = .ok fs2 ∧
      fs2 ("stage/helm" ++ "/" ++ "values.yaml") =
        some ((fs0 ("stage/helm" ++ "/" ++ "values.yaml")).getD [] ++ [1] ++ [2]) :=
  write_file_appends_never_truncates fs0 "stage/helm" "values.yaml"
    "first empty" "second empty" [1] [2] (by simp) (by simp)

/-- C9: `folder_creation` returns exactly seven strings in a fixed
positional order — indices 0 to 3 the pods/infra/helm/apps category
folders under the staging root, index 4 the archive filename, index 5
the staging root, index 6 the output root (the configured output path
with one trailing separator stripped, or the current directory when the
configured path is empty). -/
theorem folder_creation_positions :
    ∀ (c : ConfigFile) (date cwd : String),
    let root := if c.output_directory_path ≠ "" then stripTrailingSep c.output_directory_path
      else cwd
    (folder_creation c date cwd).length = 7 ∧
    (folder_creation c date cwd).get? 0 =
      some (root ++ "/info_" ++ c.context_name ++ "_" ++ date ++ "/" ++ "pods") ∧
    (folder_creation c date cwd).get? 1 =
      some (root ++ "/info_" ++ c.context_name ++ "_" ++ date ++ "/" ++ "infra") ∧
    (folder_creation c date cwd).get? 2 =
      some (root ++ "/info_" ++ c.context_name ++ "_" ++ date ++ "/" ++ "helm") ∧
    (folder_creation c date cwd).get? 3 =
      some (root ++ "/info_" ++ c.context_name ++ "_" ++ date ++ "/" ++ "apps") ∧
    (folder_creation c date cwd).get? 4 =
      some ("info_" ++ c.context_name ++ "_" ++ date ++ ".tar.gz") ∧
    (folder_creation c date cwd).get? 5 =
      some (root ++ "/info_" ++ c.context_name ++ "_" ++ date) ∧
    (folder_creation c date cwd).get? 6 = some root := by
  intro c date cwd
  exact ⟨rfl, rfl, rfl, rfl, rfl, rfl, rfl, rfl⟩

/-- C10: the in-container command output is assembled lossily — with a
succeeding stream join, the call succeeds and returns exactly the
concatenation of the decodable successful chunks in order (the spec-side
text), and prepending any dropped chunk (failed read or undecodable
bytes) leaves the returned output unchanged: the result can be incomplete
while still counting as success. -/
theorem get_output_lossy_success :
    ∀ {β ε : Type} (decode : β → Option String) (chunks : List (Except ε β)),
    (get_output decode chunks (.ok ()) = .ok (get_output_spec_text decode chunks)) ∧
    (∀ c, droppedChunk decode c →
      get_output decode (c :: chunks) (.ok ()) = get_output decode chunks (.ok ())) := by
  intro β ε decode chunks
  constructor
  · simp [get_output, filterMap_join_spec]
  · intro c hc
    cases c with
    | error e =>
      simp [get_output, List.filterMap_cons]
    | ok b =>
      have hb : decode b = none := hc
      simp [get_output, List.filterMap_cons, hb]

/-- C10 (witness): a decodable chunk, a failed read and an undecodable
chunk yield exactly the decodable chunk's text as a success, and
prepending an undecodable chunk changes nothing. -/
theorem get_output_lossy_success_witness :
    (get_output decodeW [.ok [104, 105], .error "read failed", .ok [255]] (.ok ()) =
      .ok "hi") ∧
    (get_output decodeW (.ok [255] :: ([.ok [104, 105]] : List (Except String (List Nat))))
        (.ok ()) =
      get_output decodeW ([.ok [104, 105]] : List (Except String (List Nat))) (.ok ())) := by
  constructor
  · exact ((get_output_lossy_success decodeW
      [.ok [104, 105], .error "read failed", .ok [255]]).1).trans (by rfl)
  · exact (get_output_lossy_success decodeW
      ([.ok [104, 105]] : List (Except String (List Nat)))).2 (.ok [255]) (by rfl)

end Logpv2
